import Mathlib

/-!
Verification of the key-bootstrap orchestrator and delegation-handoff flow
of the motokobootcamp-2023 repository.

The delegation handoff is embedded from the Internet Identity integration
frontend script (parseParams, PublicKeyOnlyIdentity, buildRedirectURLWithDelegation,
main). The key bootstrap orchestrator is embedded from the initAesKey callback in
expo-starter-frontend/app/_layout.tsx. External collaborators (the backend RPC,
the browser, and the key-store operations of the useAuth hook) are represented by an
outcome oracle supplied as an explicit environment value.
-/

namespace MotokoBootcamp

/-! ## Delegation handoff: request parsing -/

/-- Outcome of an external asynchronous call: either a value or a thrown
error carrying its message string. -/
inductive StepOutcome (α : Type) where
  | ok (a : α)
  | threw (msg : String)
deriving DecidableEq

/-- Query parameters of the redirect landing page, each absent or a string,
mirroring URLSearchParams.get which yields null or the value. -/
structure QueryParams where
  redirect_uri : Option String
  pubkey : Option String
  ii_uri : Option String
deriving DecidableEq

/-- Error raised by parseParams when a required parameter is missing. -/
inductive ParseError where
  | missingParameter
deriving DecidableEq

/-- The capability-restricted identity built by parseParams: it carries only the
public key of the caller (kept here as the hex string handed over in the query). -/
structure PublicKeyOnlyIdentity where
  publicKeyHex : String
deriving DecidableEq

/-- Error produced by a sign attempt on a PublicKeyOnlyIdentity, standing for
the thrown Error with message Cannot sign with incomplete identity. -/
inductive SignError where
  | signingNotSupported
deriving DecidableEq

/-- Signature bytes; never actually produced by the handoff page. -/
abbrev Signature := List Nat

/-- Embeds PublicKeyOnlyIdentity.sign: it unconditionally throws, so the
embedding returns the error on every input blob. -/
def PublicKeyOnlyIdentity.sign (_i : PublicKeyOnlyIdentity) (_blob : List Nat) :
    Except SignError Signature :=
  .error .signingNotSupported

/-- Result of a successful parseParams call. -/
structure ParsedParams where
  redirectUri : String
  identity : PublicKeyOnlyIdentity
  iiUri : String
deriving DecidableEq

/-- JavaScript falsiness of a nullable string: null and the empty string are
falsy, every other string is truthy. -/
def jsFalsy (o : Option String) : Bool := o.getD "" == ""

/-- Embeds parseParams: redirect_uri is defaulted to the empty string, then the
three parameters are checked for falsiness together; only when all three are
truthy is the identity object constructed. -/
def parseParams (q : QueryParams) : Except ParseError ParsedParams :=
  let redirectUri := q.redirect_uri.getD ""
  if redirectUri == "" || jsFalsy q.pubkey || jsFalsy q.ii_uri then
    .error .missingParameter
  else
    .ok { redirectUri := redirectUri
          identity := { publicKeyHex := q.pubkey.getD "" }
          iiUri := q.ii_uri.getD "" }

/-- Drops a present-but-empty parameter value, used to compare a query having
an empty value with the same query having the parameter absent. -/
def dropEmpty (o : Option String) : Option String :=
  if o == some "" then none else o

/-- Applies dropEmpty to all three parameters of a query. -/
def dropEmptyParams (q : QueryParams) : QueryParams :=
  { redirect_uri := dropEmpty q.redirect_uri
    pubkey := dropEmpty q.pubkey
    ii_uri := dropEmpty q.ii_uri }

/-! ## Percent-encoding (encodeURIComponent / decodeURIComponent) -/

/-- Bytes that encodeURIComponent leaves unescaped: the ASCII codes of the
letters, digits and the marks - _ . ! ~ * quote ( ). -/
def isUnreservedByte (b : Nat) : Bool :=
  (48 ≤ b && b ≤ 57) || (65 ≤ b && b ≤ 90) || (97 ≤ b && b ≤ 122) ||
  b == 45 || b == 95 || b == 46 || b == 33 || b == 126 || b == 42 ||
  b == 39 || b == 40 || b == 41

/-- Uppercase hexadecimal digit for a value below sixteen. -/
def hexUpperChar (n : Nat) : Char :=
  if n < 10 then Char.ofNat (48 + n) else Char.ofNat (55 + n)

/-- Percent-encoding of one byte: unreserved bytes stand for themselves,
every other byte becomes a percent sign and two uppercase hex digits. -/
def encodeByte (b : Nat) : List Char :=
  if isUnreservedByte b then [Char.ofNat b]
  else ['%', hexUpperChar (b / 16), hexUpperChar (b % 16)]

/-- Embeds encodeURIComponent at the level of the UTF-8 bytes of its input
string: every byte is percent-encoded independently. -/
def encodeURIComponentBytes (bs : List Nat) : List Char :=
  bs.flatMap encodeByte

/-- Numeric value of a hexadecimal digit character, or none. -/
def hexVal (c : Char) : Option Nat :=
  if 48 ≤ c.toNat && c.toNat ≤ 57 then some (c.toNat - 48)
  else if 65 ≤ c.toNat && c.toNat ≤ 70 then some (c.toNat - 55)
  else if 97 ≤ c.toNat && c.toNat ≤ 102 then some (c.toNat - 87)
  else none

/-- Value of a two-digit hexadecimal escape, or none. -/
def hexPairVal (h1 h2 : Char) : Option Nat :=
  match hexVal h1, hexVal h2 with
  | some a, some b => some (16 * a + b)
  | _, _ => none

/-- Embeds decodeURIComponent at the byte level: a percent sign followed by two
hex digits yields the encoded byte, any other character yields its own code;
a malformed percent escape fails. -/
def decodePercent : List Char → Option (List Nat)
  | [] => some []
  | '%' :: h1 :: h2 :: rest =>
      match hexPairVal h1 h2 with
      | some b => (decodePercent rest).map (fun t => b :: t)
      | none => none
  | '%' :: _ => none
  | c :: rest => (decodePercent rest).map (fun t => c.toNat :: t)

/-- Decidable per-byte roundtrip check: the encoding of a byte is either a
single non-percent character whose code is the byte itself, or a percent escape
whose hex digits decode back to the byte. -/
def byteRoundOK (b : Nat) : Bool :=
  match encodeByte b with
  | [c] => decide (c ≠ '%') && (c.toNat == b)
  | [p, h1, h2] => (p == '%') && (hexPairVal h1 h2 == some b)
  | _ => false

set_option maxRecDepth 4096 in
lemma byteRoundOK_all : ∀ b, b < 256 → byteRoundOK b = true := by decide

lemma decodePercent_encodeByte (b : Nat) (hb : b < 256) (cs : List Char) :
    decodePercent (encodeByte b ++ cs) =
      (decodePercent cs).map (fun t => b :: t) := by
  have h := byteRoundOK_all b hb
  unfold byteRoundOK at h
  cases henc : encodeByte b with
  | nil => rw [henc] at h; simp at h
  | cons c tail =>
    cases tail with
    | nil =>
      rw [henc] at h
      simp only [Bool.and_eq_true, decide_eq_true_eq, beq_iff_eq] at h
      obtain ⟨hne, hcode⟩ := h
      simp [decodePercent, hne, hcode]
    | cons c2 tail2 =>
      cases tail2 with
      | nil => rw [henc] at h; simp at h
      | cons c3 tail3 =>
        cases tail3 with
        | nil =>
          rw [henc] at h
          simp only [Bool.and_eq_true, beq_iff_eq] at h
          obtain ⟨hp, hpair⟩ := h
          subst hp
          simp [decodePercent, hpair]
        | cons c4 tail4 => rw [henc] at h; simp at h

/-- Roundtrip of the percent-encoding model: decoding the encoding of any byte
sequence returns exactly that sequence. -/
lemma decodePercent_encode (bs : List Nat) (h : ∀ b ∈ bs, b < 256) :
    decodePercent (encodeURIComponentBytes bs) = some bs := by
  induction bs with
  | nil => simp [encodeURIComponentBytes, decodePercent]
  | cons b t ih =>
    have hb : b < 256 := h b (List.mem_cons_self b t)
    have ht : ∀ x ∈ t, x < 256 := fun x hx => h x (List.mem_cons_of_mem b hx)
    rw [encodeURIComponentBytes, List.flatMap_cons,
      decodePercent_encodeByte b hb, ← encodeURIComponentBytes, ih ht]
    rfl

/-! ## Delegation handoff: redirect URL construction and the main flow -/

/-- The delegation identity returned by the auth client after a successful
login, represented by the UTF-8 bytes of the JSON serialization of its
delegation chain (JSON.stringify of getDelegation().toJSON()). -/
structure DelegationIdentity where
  delegationJson : List Nat
deriving DecidableEq

/-- Embeds buildRedirectURLWithDelegation: the redirect URI, the literal query
prefix, then the percent-encoded JSON serialization of the delegation. -/
def buildRedirectURLWithDelegation (redirectUri : String)
    (d : DelegationIdentity) : String :=
  redirectUri ++ "?delegation=" ++ (encodeURIComponentBytes d.delegationJson).asString

/-- Outcome of the login attempt driven by authClient.login: success, rejection
reported through the onError callback (message may be empty, standing for an
undefined error argument), or a rejection of the login call itself. -/
inductive LoginOutcome where
  | success
  | rejected (msg : String)
  | failedCall (msg : String)
deriving DecidableEq

/-- Environment of one run of the handoff page up to and including one click of
the login button: the query parameters and the outcomes of the external calls. -/
structure HandoffEnv where
  params : QueryParams
  createClient : StepOutcome Unit
  login : LoginOutcome
  delegationResult : StepOutcome DelegationIdentity
deriving DecidableEq

/-- Observable outcome of the handoff flow: either a navigation of
window.location.href to a URL, or an error message rendered into the error
element of the page by renderError. -/
inductive HandoffOutcome where
  | navigated (url : String)
  | renderedError (msg : String)
deriving DecidableEq

/-- Embeds formatError: prefixes the error message for display. -/
def formatError (pre msg : String) : String :=
  "Internet Identity " ++ pre ++ ": " ++ msg

/-- The message of the error thrown by parseParams on missing parameters. -/
def missingParamsMessage : String :=
  "Missing redirect_uri, pubkey, or ii_uri in query string"

/-- Embeds the main flow of the handoff page for one login-button click:
parseParams, AuthClient.create, authClient.login with its onSuccess and onError
callbacks, delegation retrieval and buildRedirectURLWithDelegation, with every
catch branch rendering the formatted error instead of navigating. -/
def runHandoff (env : HandoffEnv) : HandoffOutcome :=
  match parseParams env.params with
  | .error _ =>
      .renderedError (formatError "initialization failed" missingParamsMessage)
  | .ok p =>
    match env.createClient with
    | .threw e => .renderedError (formatError "initialization failed" e)
    | .ok _ =>
      match env.login with
      | .failedCall e => .renderedError (formatError "login process failed" e)
      | .rejected e =>
          .renderedError (formatError "authentication rejected"
            (if e == "" then "Unknown error" else e))
      | .success =>
        match env.delegationResult with
        | .threw e =>
            .renderedError (formatError "delegation retrieval failed" e)
        | .ok d => .navigated (buildRedirectURLWithDelegation p.redirectUri d)

/-- A handoff environment in which some step fails: parameter parsing, client
creation, provider login, or delegation retrieval. -/
def HandoffEnv.failed (env : HandoffEnv) : Prop :=
  parseParams env.params = .error .missingParameter ∨
  (∃ e, env.createClient = .threw e) ∨
  (∃ e, env.login = .rejected e) ∨
  (∃ e, env.login = .failedCall e) ∨
  (∃ e, env.delegationResult = .threw e)

/-! ## Key bootstrap orchestrator (initAesKey in app/_layout.tsx) -/

/-- The delegation-based identity read by the orchestrator; only its principal
is consumed (identity.getPrincipal()). -/
structure OrchIdentity where
  principal : String
deriving DecidableEq

/-- Reply of the fetchKeys call on the remote collaborator
(backend.asymmetric_keys): the public key of the keystore plus the two
optional wrapped-key fields, each an
optional byte string. -/
structure KeysReply where
  public_key : List Nat
  encrypted_aes_key : Option (List Nat)
  encrypted_key : Option (List Nat)
deriving DecidableEq

/-- Outcome oracle for the external calls one initAesKey invocation can make.
Modelled from the spec: the key-store operations of the useAuth hook
(generateAesKey, getTransportPublicKey, decryptExistingAesKey,
generateAndEncryptAesKey) are consumed by the orchestrator through this narrow
interface; generateAesKey and decryptExistingAesKey yield the symmetric key
they store on success, generateAndEncryptAesKey yields the stored key together
with the ciphertext it returns. The backend RPC outcomes model the remote
key-exchange collaborator. -/
structure OrchEnv where
  generateAesKey : StepOutcome (List Nat)
  getTransportPublicKey : StepOutcome (List Nat)
  asymmetric_keys : StepOutcome KeysReply
  decryptExistingAesKey : StepOutcome (List Nat)
  generateAndEncryptAesKey : StepOutcome (List Nat × List Nat)
  asymmetric_save_encrypted_aes_key : StepOutcome Unit
deriving DecidableEq

/-- State touched by one initAesKey invocation: the loading flag, the rendered
error, the status text, the two refs, the symmetric key owned by the key store,
and the transport keypair (its public-key bytes), which initAesKey only reads. -/
structure OrchState where
  isLoading : Bool
  error : Option String
  status : String
  attempted : Bool
  completed : Bool
  aesKey : Option (List Nat)
  transportKeyPair : Option (List Nat)
deriving DecidableEq

/-- Externally visible calls one initAesKey invocation makes, in order:
clearKey is clearAesRawKey, fetchKeys and saveEncryptedKey are the two remote
collaborator RPCs, the rest are the key-store operations. -/
inductive OrchEvent where
  | clearKey
  | fetchKeys
  | saveEncryptedKey
  | generateLocal
  | decryptExisting
  | generateAndEncrypt
deriving DecidableEq, BEq

/-- Number of occurrences of an event in a call trace. -/
def OrchEvent.countIn (e : OrchEvent) (l : List OrchEvent) : Nat :=
  (l.filter (fun x => x == e)).length

/-- The status text set by the catch branch of initAesKey. -/
def failStatus (e : String) : String := "Failed to initialize AES key: " ++ e

/-- Embeds the initAesKey callback of app/_layout.tsx as a state transformer
returning the new state and the trace of external calls. The reentrancy guard
returns immediately while loading; without an identity a key is generated
locally; with an identity the key store is cleared, fetchKeys is called, and
the two optional fields of the reply select the decrypt-existing path or the
generate-encrypt-save path; every thrown error is caught, recorded in the
error and status fields, and the loading flag is reset in the finally block. -/
def initAesKey (identity : Option OrchIdentity) (env : OrchEnv)
    (s : OrchState) : OrchState × List OrchEvent :=
  if s.isLoading then (s, [])
  else
    let s0 : OrchState := { s with error := none, isLoading := true, attempted := true }
    match identity with
    | none =>
      match env.generateAesKey with
      | .ok k =>
          ({ s0 with status := "AES key generated", aesKey := some k,
                     completed := true, isLoading := false }, [.generateLocal])
      | .threw e =>
          ({ s0 with status := failStatus e, error := some e,
                     isLoading := false }, [.generateLocal])
    | some _ =>
      let s1 : OrchState :=
        { s0 with aesKey := none, status := "Fetching keys from backend..." }
      match env.getTransportPublicKey with
      | .threw e =>
          ({ s1 with status := failStatus e, error := some e,
                     isLoading := false }, [.clearKey])
      | .ok _ =>
        match env.asymmetric_keys with
        | .threw e =>
            ({ s1 with status := failStatus e, error := some e,
                       isLoading := false }, [.clearKey, .fetchKeys])
        | .ok reply =>
          match reply.encrypted_aes_key, reply.encrypted_key with
          | some _, some _ =>
            match env.decryptExistingAesKey with
            | .threw e =>
                ({ s1 with status := failStatus e, error := some e,
                           isLoading := false },
                 [.clearKey, .fetchKeys, .decryptExisting])
            | .ok k =>
                ({ s1 with aesKey := some k,
                           status := "AES key initialization completed",
                           completed := true, isLoading := false },
                 [.clearKey, .fetchKeys, .decryptExisting])
          | _, _ =>
            match env.generateAndEncryptAesKey with
            | .threw e =>
                ({ s1 with status := failStatus e, error := some e,
                           isLoading := false },
                 [.clearKey, .fetchKeys, .generateAndEncrypt])
            | .ok kc =>
              match env.asymmetric_save_encrypted_aes_key with
              | .threw e =>
                  ({ s1 with aesKey := some kc.1, status := failStatus e,
                             error := some e, isLoading := false },
                   [.clearKey, .fetchKeys, .generateAndEncrypt, .saveEncryptedKey])
              | .ok _ =>
                  ({ s1 with aesKey := some kc.1,
                             status := "AES key initialization completed",
                             completed := true, isLoading := false },
                   [.clearKey, .fetchKeys, .generateAndEncrypt, .saveEncryptedKey])

/-! ## Helper lemmas -/

lemma dropEmpty_getD (o : Option String) : (dropEmpty o).getD "" = o.getD "" := by
  rcases o with _ | v
  · rfl
  · by_cases h : v = "" <;> simp [dropEmpty, h]

lemma parseParams_dropEmptyParams (q : QueryParams) :
    parseParams (dropEmptyParams q) = parseParams q := by
  simp [parseParams, dropEmptyParams, jsFalsy, dropEmpty_getD]

/-! ## Claim theorems -/

/-- Claim C2: every sign request on a public-key-only identity, in particular
the one constructed by parseParams, fails with SigningNotSupported; no sign
call ever returns a signature. -/
theorem sign_always_fails (i : PublicKeyOnlyIdentity) (blob : List Nat) :
    i.sign blob = .error .signingNotSupported ∧
    ∀ sig : Signature, i.sign blob ≠ .ok sig :=
  ⟨rfl, fun _ h => Except.noConfusion h⟩

/-- Witness for claim C2 at a concrete identity and blob. -/
theorem sign_always_fails_witness :
    PublicKeyOnlyIdentity.sign ⟨"aabb"⟩ [0, 1] = .error .signingNotSupported ∧
    PublicKeyOnlyIdentity.sign ⟨"aabb"⟩ [0, 1] ≠ .ok [2] :=
  ⟨(sign_always_fails ⟨"aabb"⟩ [0, 1]).1, (sign_always_fails ⟨"aabb"⟩ [0, 1]).2 [2]⟩

/-- Claim C8: if any of the three query parameters is absent, parseParams
fails with MissingParameter, so no identity object is constructed. -/
theorem parseParams_missing (q : QueryParams)
    (h : q.redirect_uri = none ∨ q.pubkey = none ∨ q.ii_uri = none) :
    parseParams q = .error .missingParameter := by
  rcases h with h | h | h <;> simp [parseParams, jsFalsy, h]

/-- Witness for claim C8 at a concrete query missing redirect_uri. -/
theorem parseParams_missing_witness :
    parseParams ⟨none, some "aabb", some "https://id.example"⟩ =
      .error .missingParameter :=
  parseParams_missing ⟨none, some "aabb", some "https://id.example"⟩ (Or.inl rfl)

/-- Claim C10: a present-but-empty value for any of the three query parameters
makes parseParams fail with MissingParameter, exactly as if the parameter were
absent: the result equals the result on the query with every empty value
dropped. -/
theorem parseParams_empty_as_missing (q : QueryParams)
    (h : q.redirect_uri = some "" ∨ q.pubkey = some "" ∨ q.ii_uri = some "") :
    parseParams q = .error .missingParameter ∧
    parseParams q = parseParams (dropEmptyParams q) := by
  refine ⟨?_, (parseParams_dropEmptyParams q).symm⟩
  rcases h with h | h | h <;> simp [parseParams, jsFalsy, h]

/-- Witness for claim C10 at a concrete query with an empty pubkey value. -/
theorem parseParams_empty_as_missing_witness :
    parseParams ⟨some "https://app.example/cb", some "", some "https://id.example"⟩ =
      .error .missingParameter ∧
    parseParams ⟨some "https://app.example/cb", some "", some "https://id.example"⟩ =
      parseParams (dropEmptyParams
        ⟨some "https://app.example/cb", some "", some "https://id.example"⟩) :=
  parseParams_empty_as_missing
    ⟨some "https://app.example/cb", some "", some "https://id.example"⟩
    (Or.inr (Or.inl rfl))

/-- Claim C4: invoking initAesKey while an attempt is in progress (the loading
flag is set) is a no-op: the state, including the key store, the transport
keypair, the status and the error, is returned unchanged, and no external call
is made, so the remote collaborator call counts are unchanged. -/
theorem initAesKey_reentrant_noop (identity : Option OrchIdentity)
    (env : OrchEnv) (s : OrchState) (h : s.isLoading = true) :
    initAesKey identity env s = (s, []) := by
  simp [initAesKey, h]

/-- Witness for claim C4 at a concrete in-progress state. -/
theorem initAesKey_reentrant_noop_witness :
    initAesKey none
      ⟨.ok [1], .ok [2], .ok ⟨[3], none, none⟩, .ok [4], .ok ([5], [6]), .ok ()⟩
      ⟨true, none, "Fetching keys from backend...", true, false, none, some [9]⟩ =
      (⟨true, none, "Fetching keys from backend...", true, false, none, some [9]⟩, []) :=
  initAesKey_reentrant_noop none _ _ rfl

/-- Claim C7: with no identity present and local generation succeeding, the
attempt completes by storing the locally generated key, and the remote
collaborator is never called: the trace is exactly one local generation, with
zero fetchKeys and zero saveEncryptedKey calls. -/
theorem initAesKey_noIdentity (env : OrchEnv) (s : OrchState) (k : List Nat)
    (hl : s.isLoading = false) (hg : env.generateAesKey = .ok k) :
    (initAesKey none env s).1.completed = true ∧
    (initAesKey none env s).1.aesKey = some k ∧
    (initAesKey none env s).1.error = none ∧
    (initAesKey none env s).2 = [.generateLocal] ∧
    OrchEvent.countIn .fetchKeys (initAesKey none env s).2 = 0 ∧
    OrchEvent.countIn .saveEncryptedKey (initAesKey none env s).2 = 0 := by
  refine ⟨?_, ?_, ?_, ?_, ?_, ?_⟩ <;>
    simp [initAesKey, hl, hg, OrchEvent.countIn] <;> decide

/-- Witness for claim C7 at a concrete environment and idle state. -/
theorem initAesKey_noIdentity_witness :
    (initAesKey none
      ⟨.ok [7], .ok [2], .ok ⟨[3], none, none⟩, .ok [4], .ok ([5], [6]), .ok ()⟩
      ⟨false, none, "", false, false, none, none⟩).1.completed = true ∧
    (initAesKey none
      ⟨.ok [7], .ok [2], .ok ⟨[3], none, none⟩, .ok [4], .ok ([5], [6]), .ok ()⟩
      ⟨false, none, "", false, false, none, none⟩).1.aesKey = some [7] ∧
    (initAesKey none
      ⟨.ok [7], .ok [2], .ok ⟨[3], none, none⟩, .ok [4], .ok ([5], [6]), .ok ()⟩
      ⟨false, none, "", false, false, none, none⟩).1.error = none ∧
    (initAesKey none
      ⟨.ok [7], .ok [2], .ok ⟨[3], none, none⟩, .ok [4], .ok ([5], [6]), .ok ()⟩
      ⟨false, none, "", false, false, none, none⟩).2 = [.generateLocal] ∧
    OrchEvent.countIn .fetchKeys (initAesKey none
      ⟨.ok [7], .ok [2], .ok ⟨[3], none, none⟩, .ok [4], .ok ([5], [6]), .ok ()⟩
      ⟨false, none, "", false, false, none, none⟩).2 = 0 ∧
    OrchEvent.countIn .saveEncryptedKey (initAesKey none
      ⟨.ok [7], .ok [2], .ok ⟨[3], none, none⟩, .ok [4], .ok ([5], [6]), .ok ()⟩
      ⟨false, none, "", false, false, none, none⟩).2 = 0 :=
  initAesKey_noIdentity _ _ [7] rfl rfl

/-- Claim C5: in every identity-present attempt that reaches the fetch stage,
the symmetric key is cleared before the fetchKeys call (the trace begins with
clearKey then fetchKeys), and if fetchKeys throws, the attempt ends failed with
the symmetric key still cleared. -/
theorem initAesKey_clearsBeforeFetch (i : OrchIdentity) (env : OrchEnv)
    (s : OrchState) (t : List Nat)
    (hl : s.isLoading = false)
    (ht : env.getTransportPublicKey = .ok t) :
    (initAesKey (some i) env s).2.take 2 = [.clearKey, .fetchKeys] ∧
    (∀ e, env.asymmetric_keys = .threw e →
      (initAesKey (some i) env s).1.aesKey = none ∧
      (initAesKey (some i) env s).1.error = some e) := by
  constructor
  · rcases hf : env.asymmetric_keys with reply | e
    · rcases hA : reply.encrypted_aes_key with _ | a <;>
        rcases hB : reply.encrypted_key with _ | b
      · rcases hg : env.generateAndEncryptAesKey with kc | e
        · rcases hs : env.asymmetric_save_encrypted_aes_key with u | e <;>
            simp [initAesKey, hl, ht, hf, hA, hB, hg, hs]
        · simp [initAesKey, hl, ht, hf, hA, hB, hg]
      · rcases hg : env.generateAndEncryptAesKey with kc | e
        · rcases hs : env.asymmetric_save_encrypted_aes_key with u | e <;>
            simp [initAesKey, hl, ht, hf, hA, hB, hg, hs]
        · simp [initAesKey, hl, ht, hf, hA, hB, hg]
      · rcases hg : env.generateAndEncryptAesKey with kc | e
        · rcases hs : env.asymmetric_save_encrypted_aes_key with u | e <;>
            simp [initAesKey, hl, ht, hf, hA, hB, hg, hs]
        · simp [initAesKey, hl, ht, hf, hA, hB, hg]
      · rcases hd : env.decryptExistingAesKey with k | e <;>
          simp [initAesKey, hl, ht, hf, hA, hB, hd]
    · simp [initAesKey, hl, ht, hf]
  · intro e hf
    constructor <;> simp [initAesKey, hl, ht, hf]

/-- Witness for claim C5 at a concrete environment whose fetchKeys throws. -/
theorem initAesKey_clearsBeforeFetch_witness :
    ((initAesKey (some ⟨"p"⟩)
      ⟨.ok [1], .ok [2], .threw "network down", .ok [4], .ok ([5], [6]), .ok ()⟩
      ⟨false, none, "", false, false, some [8], none⟩).2.take 2 =
        [.clearKey, .fetchKeys] ∧
     (∀ e, (⟨.ok [1], .ok [2], .threw "network down", .ok [4], .ok ([5], [6]),
              .ok ()⟩ : OrchEnv).asymmetric_keys = .threw e →
       (initAesKey (some ⟨"p"⟩)
         ⟨.ok [1], .ok [2], .threw "network down", .ok [4], .ok ([5], [6]), .ok ()⟩
         ⟨false, none, "", false, false, some [8], none⟩).1.aesKey = none ∧
       (initAesKey (some ⟨"p"⟩)
         ⟨.ok [1], .ok [2], .threw "network down", .ok [4], .ok ([5], [6]), .ok ()⟩
         ⟨false, none, "", false, false, some [8], none⟩).1.error = some e)) :=
  initAesKey_clearsBeforeFetch ⟨"p"⟩ _ _ [2] rfl rfl

/-- Claim C6: in every identity-present attempt whose fetchKeys reply carries
both wrapped fields and whose decryption succeeds, the trace is exactly one
clearKey, one fetchKeys and one decryptExisting, so fetchKeys is called exactly
once and saveEncryptedKey never; the decrypted key is stored and the attempt
completes without error. -/
theorem initAesKey_bothPresent (i : OrchIdentity) (env : OrchEnv)
    (s : OrchState) (t : List Nat) (reply : KeysReply)
    (a b dk : List Nat)
    (hl : s.isLoading = false)
    (ht : env.getTransportPublicKey = .ok t)
    (hf : env.asymmetric_keys = .ok reply)
    (ha : reply.encrypted_aes_key = some a)
    (hb : reply.encrypted_key = some b)
    (hd : env.decryptExistingAesKey = .ok dk) :
    (initAesKey (some i) env s).2 = [.clearKey, .fetchKeys, .decryptExisting] ∧
    OrchEvent.countIn .fetchKeys (initAesKey (some i) env s).2 = 1 ∧
    OrchEvent.countIn .saveEncryptedKey (initAesKey (some i) env s).2 = 0 ∧
    (initAesKey (some i) env s).1.aesKey = some dk ∧
    (initAesKey (some i) env s).1.completed = true ∧
    (initAesKey (some i) env s).1.error = none := by
  refine ⟨?_, ?_, ?_, ?_, ?_, ?_⟩ <;>
    simp [initAesKey, hl, ht, hf, ha, hb, hd, OrchEvent.countIn] <;> decide

/-- Witness for claim C6 at a concrete reply carrying both wrapped fields. -/
theorem initAesKey_bothPresent_witness :
    (initAesKey (some ⟨"p"⟩)
      ⟨.ok [1], .ok [2], .ok ⟨[3], some [4], some [5]⟩, .ok [9], .ok ([6], [7]), .ok ()⟩
      ⟨false, none, "", false, false, none, none⟩).2 =
        [.clearKey, .fetchKeys, .decryptExisting] ∧
    OrchEvent.countIn .fetchKeys (initAesKey (some ⟨"p"⟩)
      ⟨.ok [1], .ok [2], .ok ⟨[3], some [4], some [5]⟩, .ok [9], .ok ([6], [7]), .ok ()⟩
      ⟨false, none, "", false, false, none, none⟩).2 = 1 ∧
    OrchEvent.countIn .saveEncryptedKey (initAesKey (some ⟨"p"⟩)
      ⟨.ok [1], .ok [2], .ok ⟨[3], some [4], some [5]⟩, .ok [9], .ok ([6], [7]), .ok ()⟩
      ⟨false, none, "", false, false, none, none⟩).2 = 0 ∧
    (initAesKey (some ⟨"p"⟩)
      ⟨.ok [1], .ok [2], .ok ⟨[3], some [4], some [5]⟩, .ok [9], .ok ([6], [7]), .ok ()⟩
      ⟨false, none, "", false, false, none, none⟩).1.aesKey = some [9] ∧
    (initAesKey (some ⟨"p"⟩)
      ⟨.ok [1], .ok [2], .ok ⟨[3], some [4], some [5]⟩, .ok [9], .ok ([6], [7]), .ok ()⟩
      ⟨false, none, "", false, false, none, none⟩).1.completed = true ∧
    (initAesKey (some ⟨"p"⟩)
      ⟨.ok [1], .ok [2], .ok ⟨[3], some [4], some [5]⟩, .ok [9], .ok ([6], [7]), .ok ()⟩
      ⟨false, none, "", false, false, none, none⟩).1.error = none :=
  initAesKey_bothPresent ⟨"p"⟩ _ _ [2] ⟨[3], some [4], some [5]⟩ [4] [5] [9]
    rfl rfl rfl rfl rfl rfl

/-- Environment exhibiting the counterexample to claim C1: the fetchKeys reply
carries encrypted_aes_key but not encrypted_key, and every other call
succeeds. -/
def envOneFieldReply : OrchEnv :=
  { generateAesKey := .ok [1]
    getTransportPublicKey := .ok [2]
    asymmetric_keys := .ok { public_key := [3], encrypted_aes_key := some [4],
                             encrypted_key := none }
    decryptExistingAesKey := .ok [5]
    generateAndEncryptAesKey := .ok ([6], [7])
    asymmetric_save_encrypted_aes_key := .ok () }

/-- Erases the two optional wrapped fields of a fetchKeys reply. -/
def eraseWrapped (r : KeysReply) : KeysReply :=
  { r with encrypted_aes_key := none, encrypted_key := none }

/-- Replaces the fetchKeys outcome of an environment. -/
def withReply (env : OrchEnv) (r : KeysReply) : OrchEnv :=
  { env with asymmetric_keys := .ok r }

/-- Counterexample to claim C1: on a reply with exactly one wrapped field
present the attempt does not fail at all; it completes with no error through
the generate-encrypt-save path, calling saveEncryptedKey. -/
theorem c1_one_field_reply_completes :
    (initAesKey (some ⟨"p"⟩) envOneFieldReply
      ⟨false, none, "", false, false, none, none⟩).1.error = none ∧
    (initAesKey (some ⟨"p"⟩) envOneFieldReply
      ⟨false, none, "", false, false, none, none⟩).1.completed = true ∧
    (initAesKey (some ⟨"p"⟩) envOneFieldReply
      ⟨false, none, "", false, false, none, none⟩).2 =
      [.clearKey, .fetchKeys, .generateAndEncrypt, .saveEncryptedKey] :=
  ⟨rfl, rfl, rfl⟩

/-- Claim C1 as amended: a fetchKeys reply in which exactly one of the two
optional wrapped fields is present is not rejected; the attempt proceeds
exactly as if both fields were absent, taking the generate-encrypt-save path. -/
theorem initAesKey_oneFieldReply (i : OrchIdentity) (env : OrchEnv)
    (s : OrchState) (reply : KeysReply)
    (hf : env.asymmetric_keys = .ok reply)
    (hone : reply.encrypted_aes_key.isSome ≠ reply.encrypted_key.isSome) :
    initAesKey (some i) env s =
      initAesKey (some i) (withReply env (eraseWrapped reply)) s := by
  by_cases hl : s.isLoading
  · simp [initAesKey, hl]
  · simp only [Bool.not_eq_true] at hl
    rcases hA : reply.encrypted_aes_key with _ | a <;>
      rcases hB : reply.encrypted_key with _ | b
    · rw [hA, hB] at hone; simp at hone
    · simp [initAesKey, withReply, eraseWrapped, hl, hf, hA, hB]
    · simp [initAesKey, withReply, eraseWrapped, hl, hf, hA, hB]
    · rw [hA, hB] at hone; simp at hone

/-- Witness for the amended claim C1 at the counterexample environment. -/
theorem initAesKey_oneFieldReply_witness :
    initAesKey (some ⟨"p"⟩) envOneFieldReply
      ⟨false, none, "", false, false, none, none⟩ =
    initAesKey (some ⟨"p"⟩)
      (withReply envOneFieldReply (eraseWrapped ⟨[3], some [4], none⟩))
      ⟨false, none, "", false, false, none, none⟩ :=
  initAesKey_oneFieldReply ⟨"p"⟩ envOneFieldReply
    ⟨false, none, "", false, false, none, none⟩ ⟨[3], some [4], none⟩
    rfl (by decide)

lemma runHandoff_navigated_allOk (env : HandoffEnv) (url : String)
    (h : runHandoff env = .navigated url) :
    (∃ p, parseParams env.params = .ok p) ∧
    (∃ u, env.createClient = .ok u) ∧
    env.login = .success ∧
    (∃ d, env.delegationResult = .ok d) := by
  rcases hp : parseParams env.params with e | p
  · simp [runHandoff, hp] at h
  · rcases hc : env.createClient with u | e
    · rcases hlg : env.login with _ | e | e
      · rcases hd : env.delegationResult with d | e
        · exact ⟨⟨p, rfl⟩, ⟨u, rfl⟩, rfl, ⟨d, rfl⟩⟩
        · simp [runHandoff, hp, hc, hlg, hd] at h
      · simp [runHandoff, hp, hc, hlg] at h
      · simp [runHandoff, hp, hc, hlg] at h
    · simp [runHandoff, hp, hc] at h

lemma runHandoff_shape (env : HandoffEnv) :
    (∃ m, runHandoff env = .renderedError m) ∨
    (∃ u, runHandoff env = .navigated u) := by
  cases h : runHandoff env with
  | navigated u => exact .inr ⟨u, rfl⟩
  | renderedError m => exact .inl ⟨m, rfl⟩

/-- Claim C3: whenever any step of the delegation handoff fails, parameter
parsing, client creation, provider login, or delegation retrieval, the outcome
is a rendered error message and never a navigation to the redirect URI. -/
theorem runHandoff_failure (env : HandoffEnv) (h : env.failed) :
    (∃ msg, runHandoff env = .renderedError msg) ∧
    ∀ url, runHandoff env ≠ .navigated url := by
  have hnav : ∀ url, runHandoff env ≠ .navigated url := by
    intro url hcon
    obtain ⟨⟨p, hp⟩, ⟨u, hc⟩, hlg, ⟨d, hd⟩⟩ := runHandoff_navigated_allOk env url hcon
    rcases h with h | ⟨e, h⟩ | ⟨e, h⟩ | ⟨e, h⟩ | ⟨e, h⟩
    · rw [hp] at h; exact Except.noConfusion h
    · rw [hc] at h; exact StepOutcome.noConfusion h
    · rw [hlg] at h; exact LoginOutcome.noConfusion h
    · rw [hlg] at h; exact LoginOutcome.noConfusion h
    · rw [hd] at h; exact StepOutcome.noConfusion h
  rcases runHandoff_shape env with hr | ⟨u, hu⟩
  · exact ⟨hr, hnav⟩
  · exact absurd hu (hnav u)

/-- Environment for the claim C3 witness: valid parameters, but the provider
rejects the login. -/
def envRejectedLogin : HandoffEnv :=
  { params := { redirect_uri := some "https://app.example/cb"
                pubkey := some "aabb"
                ii_uri := some "https://id.example" }
    createClient := .ok ()
    login := .rejected "user cancelled"
    delegationResult := .ok ⟨[104, 105]⟩ }

/-- Witness for claim C3 at a concrete environment with a rejected login. -/
theorem runHandoff_failure_witness :
    (∃ msg, runHandoff envRejectedLogin = .renderedError msg) ∧
    ∀ url, runHandoff envRejectedLogin ≠ .navigated url :=
  runHandoff_failure envRejectedLogin
    (Or.inr (Or.inr (Or.inl ⟨"user cancelled", rfl⟩)))

/-- Claim C9: on a fully successful handoff the navigation URL is exactly the
redirect URI followed by the delegation query prefix and the percent-encoded
JSON serialization of the delegation, and decoding that query value returns the
JSON bytes of the delegation exactly. -/
theorem runHandoff_success_url (env : HandoffEnv) (p : ParsedParams)
    (d : DelegationIdentity)
    (hp : parseParams env.params = .ok p)
    (hc : env.createClient = .ok ())
    (hl : env.login = .success)
    (hd : env.delegationResult = .ok d)
    (hbytes : ∀ b ∈ d.delegationJson, b < 256) :
    runHandoff env = .navigated
      (p.redirectUri ++ "?delegation=" ++
        (encodeURIComponentBytes d.delegationJson).asString) ∧
    decodePercent (encodeURIComponentBytes d.delegationJson) =
      some d.delegationJson := by
  refine ⟨?_, decodePercent_encode _ hbytes⟩
  simp [runHandoff, hp, hc, hl, hd, buildRedirectURLWithDelegation]

/-- Environment for the claim C9 witness: valid parameters and a successful
login yielding a delegation whose JSON bytes include a percent sign. -/
def envSuccessLogin : HandoffEnv :=
  { params := { redirect_uri := some "https://app.example/cb"
                pubkey := some "aabb"
                ii_uri := some "https://id.example" }
    createClient := .ok ()
    login := .success
    delegationResult := .ok ⟨[104, 105, 37]⟩ }

/-- Witness for claim C9 at a concrete successful handoff. -/
theorem runHandoff_success_url_witness :
    runHandoff envSuccessLogin = .navigated
      ((⟨"https://app.example/cb", ⟨"aabb"⟩, "https://id.example"⟩ :
          ParsedParams).redirectUri ++ "?delegation=" ++
        (encodeURIComponentBytes [104, 105, 37]).asString) ∧
    decodePercent (encodeURIComponentBytes [104, 105, 37]) =
      some [104, 105, 37] :=
  runHandoff_success_url envSuccessLogin
    ⟨"https://app.example/cb", ⟨"aabb"⟩, "https://id.example"⟩
    ⟨[104, 105, 37]⟩ rfl rfl rfl rfl (by decide)

end MotokoBootcamp
